import Mathlib

/-!
Shallow embedding of the erth-exporter scraper (src/main.rs).

Time model: the monotonic clock (std::time::Instant) is modelled as a Nat
counting nanoseconds since an arbitrary epoch, and std::time::Duration as a
Nat of nanoseconds.  Subtraction of instants is Nat subtraction (Rust's
Instant subtraction saturates at zero).  The network fetch performed by
Scraper::scrape and the HTML selector capability are external collaborators:
a fetch outcome is passed in as an explicit value, with each qualifying-block
candidate already reduced to the data the code reads from it (whether its
inner html contains the marker phrase, and the list of value texts).
-/

deriving instance DecidableEq for Except

/-- Supported HTTP version (const HTTP_VERSION in main.rs). -/
def HTTP_VERSION : String := "HTTP/1.1"

/-- Duration::from_secs, in nanoseconds. -/
def durFromSecs (s : Nat) : Nat := s * 1000000000

/-- Duration::as_secs. -/
def durAsSecs (d : Nat) : Nat := d / 1000000000

/-- Duration::as_millis. -/
def durAsMillis (d : Nat) : Nat := d / 1000000

/-- Time-to-live for cached data frames (const CACHE_EXPIRATION in main.rs). -/
def CACHE_EXPIRATION : Nat := durFromSecs 30

/-- enum TicketType in main.rs: citizens services (B), drivers-license
services (F) or the invalid value used during off-hours (None). -/
inductive TicketType where
  | B
  | F
  | None
  deriving DecidableEq

/-- The Display impl for TicketType in main.rs. -/
def TicketType.fmt : TicketType → String
  | TicketType.B => "B"
  | TicketType.F => "F"
  | TicketType.None => "N/A"

/-- struct Ticket(TicketType, usize) in main.rs; the tuple fields are named
ty and num here. -/
structure Ticket where
  ty : TicketType
  num : Nat
  deriving DecidableEq

/-- struct QueueDataFrame in main.rs. -/
structure QueueDataFrame where
  people_waiting : Nat
  last_called_ticket : Ticket
  waiting_time_estimation : Nat
  tracked_waiting_time : Option Nat
  deriving DecidableEq

/-- struct DataFrame in main.rs. -/
structure DataFrame where
  citizen_services : QueueDataFrame
  drivers_license_services : QueueDataFrame
  cached : Bool
  scrape_duration : Nat
  created_instant : Nat
  created_timestamp : Nat
  deriving DecidableEq

/-- struct Scraper in main.rs.  The HashMap ticket tracker is modelled as an
association list without duplicate keys (every operation the code performs
preserves that). -/
structure Scraper where
  cache : Option DataFrame
  ticket_tracker : List (Ticket × Nat)
  deriving DecidableEq

/-- str::parse::<usize> on a string slice: an optional leading plus sign,
then one or more ASCII digits, with the value required to fit in 64 bits
(parsing fails on overflow). -/
def parseUsize (s : String) : Option Nat :=
  let cs :=
    match s.data with
    | '+' :: rest => rest
    | cs => cs
  if cs.isEmpty then none
  else if cs.all Char.isDigit then
    let n := cs.foldl (fun acc c => acc * 10 + (c.toNat - 48)) 0
    if n < 18446744073709551616 then some n else none
  else none

/-- Ticket::parse in main.rs. -/
def Ticket.parse (s : String) : Except Unit Ticket :=
  let t :=
    match s.data.head? with
    | some 'B' => TicketType.B
    | some 'F' => TicketType.F
    | _ => TicketType.None
  match t with
  | TicketType.B | TicketType.F =>
    match parseUsize (s.drop 1) with
    | some n => Except.ok ⟨t, n⟩
    | none => Except.error ()
  | TicketType.None => Except.ok ⟨TicketType.None, 0⟩

/-- One element matched by the block selector, as read by Scraper::scrape:
has_marker models whether its inner html contains BLOCK_CONTENT_FILTER, and
values models the inner html of its value-selector matches, in document
order. -/
structure Block where
  has_marker : Bool
  values : List String
  deriving DecidableEq

/-- values[2].strip_suffix(" Minuten").unwrap_or(&values[2]) in
Scraper::scrape (the suffix is 8 characters long): drop the suffix when the
string ends with it, otherwise keep the string unchanged. -/
def stripMinuten (v : String) : String :=
  if 8 ≤ v.data.length ∧ v.data.drop (v.data.length - 8) = (" Minuten").data then
    String.mk (v.data.take (v.data.length - 8))
  else v

/-- The body of the per-block extraction loop in Scraper::scrape: requires
at least 3 values and parses them positionally. -/
def extractBlock (values : List String) : Except String QueueDataFrame :=
  match values with
  | v0 :: v1 :: v2 :: _ =>
    match parseUsize v0 with
    | none => Except.error "cannot parse waiting persons"
    | some people_waiting =>
      match Ticket.parse v1 with
      | Except.error _ => Except.error "cannot parse current ticket"
      | Except.ok last_called_ticket =>
        match parseUsize (stripMinuten v2) with
        | none => Except.error "cannot parse waiting-time estimation"
        | some waiting_time_estimation =>
          Except.ok ⟨people_waiting, last_called_ticket, waiting_time_estimation, none⟩
  | _ => Except.error "not enough lines"

/-- The extraction loop of Scraper::scrape over the already-filtered blocks;
it stops at the first failing block. -/
def extractFrames : List Block → Except String (List QueueDataFrame)
  | [] => Except.ok []
  | b :: rest =>
    match extractBlock b.values with
    | Except.error e => Except.error e
    | Except.ok df =>
      match extractFrames rest with
      | Except.error e => Except.error e
      | Except.ok dfs => Except.ok (df :: dfs)

/-- The extractor part of Scraper::scrape: keep the blocks whose inner html
contains BLOCK_CONTENT_FILTER, then run the extraction loop on them in
document order. -/
def extract (blocks : List Block) : Except String (List QueueDataFrame) :=
  extractFrames (blocks.filter (fun b => b.has_marker))

/-- HashMap::get on the ticket tracker. -/
def trackerGet : List (Ticket × Nat) → Ticket → Option Nat
  | [], _ => none
  | kv :: rest, k => if kv.1 = k then some kv.2 else trackerGet rest k

/-- Scraper::update_tracker in main.rs.  The two Instant::now() readings the
code takes inside the call are modelled by the single parameter now. -/
def Scraper.update_tracker (s : Scraper) (ticket : Ticket) (queue_length : Nat)
    (expected_ticket_type : TicketType) (now : Nat) : Option Nat × Scraper :=
  if ticket.ty = TicketType.None then
    (none, { s with ticket_tracker :=
      s.ticket_tracker.filter (fun kv => decide (kv.1.ty ≠ expected_ticket_type)) })
  else if ticket.ty ≠ expected_ticket_type then
    (none, s)
  else
    let ret := (trackerGet s.ticket_tracker ticket).map (fun i => now - i)
    let new_ticket : Ticket := ⟨ticket.ty, ticket.num + queue_length⟩
    let tracker :=
      match trackerGet s.ticket_tracker new_ticket with
      | some _ => s.ticket_tracker
      | none => (new_ticket, now) :: s.ticket_tracker
    (ret, { s with ticket_tracker := tracker })

/-- Scraper::scrape in main.rs.  fetch is the outcome of the network request
already cut into selector blocks (an Err models a transport or body error);
start models the Instant read at function entry, now the later Instant reads,
wall the wall-clock timestamp (already defaulted to zero on clock error). -/
def Scraper.scrape (s : Scraper) (fetch : Except String (List Block))
    (now start wall : Nat) : Except String (DataFrame × Scraper) :=
  match fetch with
  | Except.error e => Except.error e
  | Except.ok blocks =>
    match extract blocks with
    | Except.error e => Except.error e
    | Except.ok (df0 :: df1 :: _) =>
      let r0 := s.update_tracker df0.last_called_ticket df0.people_waiting TicketType.B now
      let r1 := r0.2.update_tracker df1.last_called_ticket df1.people_waiting TicketType.F now
      Except.ok
        ({ citizen_services := { df0 with tracked_waiting_time := r0.1 },
           drivers_license_services := { df1 with tracked_waiting_time := r1.1 },
           cached := false,
           scrape_duration := now - start,
           created_instant := now,
           created_timestamp := wall }, r1.2)
    | Except.ok _ => Except.error "not enough data blocks"

/-- The erth_people_waiting line for the citizen service. -/
def citizenPeopleLine (q : QueueDataFrame) : String :=
  "erth_people_waiting\x7bservice=\"citizen\"\x7d\t\t" ++ (toString q.people_waiting ++ "\n")

/-- The erth_last_called_ticket line for the citizen service. -/
def citizenTicketLine (t : Ticket) : String :=
  "erth_last_called_ticket\x7bservice=\"citizen\",type=\"" ++
    (t.ty.fmt ++ ("\"\x7d\t" ++ (toString t.num ++ "\n")))

/-- The erth_waiting_time line for the citizen service. -/
def citizenWaitingLine (q : QueueDataFrame) : String :=
  "erth_waiting_time\x7bservice=\"citizen\"\x7d\t\t" ++ (toString q.waiting_time_estimation ++ "\n")

/-- The erth_tracked_waiting_time line for the citizen service (whole
seconds). -/
def citizenTrackedLine (d : Nat) : String :=
  "erth_tracked_waiting_time\x7bservice=\"citizen\"\x7d\t\t" ++ (toString (durAsSecs d) ++ "\n")

/-- The erth_people_waiting line for the drivers-license service. -/
def driversPeopleLine (q : QueueDataFrame) : String :=
  "erth_people_waiting\x7bservice=\"drivers_license\"\x7d\t\t" ++ (toString q.people_waiting ++ "\n")

/-- The erth_last_called_ticket line for the drivers-license service. -/
def driversTicketLine (t : Ticket) : String :=
  "erth_last_called_ticket\x7bservice=\"drivers_license\",type=\"" ++
    (t.ty.fmt ++ ("\"\x7d\t" ++ (toString t.num ++ "\n")))

/-- The erth_waiting_time line for the drivers-license service. -/
def driversWaitingLine (q : QueueDataFrame) : String :=
  "erth_waiting_time\x7bservice=\"drivers_license\"\x7d\t\t" ++ (toString q.waiting_time_estimation ++ "\n")

/-- The erth_tracked_waiting_time line for the drivers-license service. -/
def driversTrackedLine (d : Nat) : String :=
  "erth_tracked_waiting_time\x7bservice=\"drivers_license\"\x7d\t\t" ++ (toString (durAsSecs d) ++ "\n")

/-- The erth_cached meta line (the bool is rendered as i64, 0 or 1). -/
def cachedLine (b : Bool) : String :=
  "erth_cached\t\t" ++ (toString (if b then (1 : Nat) else 0) ++ "\n")

/-- The erth_tracked_tickets meta line. -/
def trackedTicketsLine (n : Nat) : String :=
  "erth_tracked_tickets\t" ++ (toString n ++ "\n")

/-- The erth_scrape_duration meta line (milliseconds). -/
def scrapeDurationLine (d : Nat) : String :=
  "erth_scrape_duration\t" ++ (toString (durAsMillis d) ++ "\n")

/-- The erth_scrape_timestamp meta line (milliseconds). -/
def scrapeTimestampLine (d : Nat) : String :=
  "erth_scrape_timestamp\t" ++ (toString (durAsMillis d) ++ "\n")

/-- The strings pushed for the citizen-service block of Scraper::metrics, in
push order. -/
def citizenLines (q : QueueDataFrame) : List String :=
  ["# Information on the citizen service\n", citizenPeopleLine q]
  ++ (match q.last_called_ticket.ty with
      | TicketType.B | TicketType.F => [citizenTicketLine q.last_called_ticket]
      | TicketType.None => [])
  ++ [citizenWaitingLine q]
  ++ (match q.tracked_waiting_time with
      | some t => [citizenTrackedLine t]
      | none => [])

/-- The strings pushed for the drivers-license block of Scraper::metrics, in
push order. -/
def driversLines (q : QueueDataFrame) : List String :=
  ["\n# Information on the drivers-license service\n", driversPeopleLine q]
  ++ (match q.last_called_ticket.ty with
      | TicketType.B | TicketType.F => [driversTicketLine q.last_called_ticket]
      | TicketType.None => [])
  ++ [driversWaitingLine q]
  ++ (match q.tracked_waiting_time with
      | some t => [driversTrackedLine t]
      | none => [])

/-- The strings pushed for the meta block of Scraper::metrics, in push
order; tracked_tickets is self.ticket_tracker.len() at render time. -/
def metaLines (data : DataFrame) (tracked_tickets : Nat) : List String :=
  ["\n# Meta information\n",
   cachedLine data.cached,
   trackedTicketsLine tracked_tickets,
   scrapeDurationLine data.scrape_duration,
   scrapeTimestampLine data.created_timestamp]

/-- All strings pushed onto the response by Scraper::metrics, in push
order. -/
def metricsLines (data : DataFrame) (tracked_tickets : Nat) : List String :=
  citizenLines data.citizen_services
  ++ driversLines data.drivers_license_services
  ++ metaLines data tracked_tickets

/-- The rendered metrics text: the concatenation of all pushed strings. -/
def metricsBody (data : DataFrame) (tracked_tickets : Nat) : String :=
  String.join (metricsLines data tracked_tickets)

/-- The else-branch of the cache check in Scraper::metrics:
self.cache.insert(data.clone()).cached = true stores a clone of the scraped
frame, marks only that stored clone as cached, and hands the original frame
back.  The last component counts network fetch attempts (Scraper::scrape
performs exactly one fetch, as its first step). -/
def Scraper.scrapeAndStore (s : Scraper) (now start wall : Nat)
    (fetch : Except String (List Block)) : Except String DataFrame × Scraper × Nat :=
  match s.scrape fetch now start wall with
  | Except.error e => (Except.error e, s, 1)
  | Except.ok (data, s2) =>
    (Except.ok data, { s2 with cache := some { data with cached := true } }, 1)

/-- The cache logic at the top of Scraper::metrics: serve the cached frame
when one exists and self.cache.created_instant > now - CACHE_EXPIRATION,
otherwise scrape and store.  The last component counts network fetch
attempts made by the call (0 on a cache hit, 1 otherwise). -/
def Scraper.getOrScrape (s : Scraper) (now start wall : Nat)
    (fetch : Except String (List Block)) : Except String DataFrame × Scraper × Nat :=
  match s.cache with
  | some d =>
    if d.created_instant > now - CACHE_EXPIRATION then (Except.ok d, s, 0)
    else s.scrapeAndStore now start wall fetch
  | none => s.scrapeAndStore now start wall fetch

/-- Scraper::metrics in main.rs: the cache/scrape step followed by
rendering; erth_tracked_tickets is read from the state left by that step. -/
def Scraper.metrics (s : Scraper) (now start wall : Nat)
    (fetch : Except String (List Block)) : Except String String × Scraper × Nat :=
  match s.getOrScrape now start wall fetch with
  | (Except.error e, s2, n) => (Except.error e, s2, n)
  | (Except.ok data, s2, n) =>
    (Except.ok (metricsBody data s2.ticket_tracker.length), s2, n)

/-- enum ResponseType in main.rs. -/
inductive ResponseType where
  | Ok
  | BadRequest
  | NotFound
  deriving DecidableEq

/-- The code_and_reason strings of Server::send_response. -/
def code_and_reason : ResponseType → String
  | ResponseType.Ok => "200 OK"
  | ResponseType.BadRequest => "400 BAD REQUEST"
  | ResponseType.NotFound => "404 NOT FOUND"

/-- Server::send_response in main.rs, modelled as the list of strings
written to the stream, in write order: the status line, one line per header,
the Content-Length header (the length is the byte length of the content),
then the content, which defaults to the code-and-reason string.  The
HashMap of headers is modelled as a list (its iteration order is
arbitrary). -/
def send_response (response_type : ResponseType) (headers : List (String × String))
    (content : Option String) : List String :=
  let car := code_and_reason response_type
  let content :=
    match content with
    | some content => content
    | none => car
  let length := content.utf8ByteSize
  [HTTP_VERSION ++ (" " ++ (car ++ "\r\n"))]
  ++ headers.map (fun kv => kv.1 ++ (": " ++ (kv.2 ++ "\r\n")))
  ++ ["Content-Length: " ++ (toString length ++ "\r\n\r\n"), content]

/-- str::split(' ') on the underlying characters: split at every space,
keeping empty pieces (the empty string splits to one empty piece). -/
def splitSpaceChars : List Char → List (List Char)
  | [] => [[]]
  | c :: rest =>
    let r := splitSpaceChars rest
    if c = ' ' then [] :: r
    else
      match r with
      | g :: gs => (c :: g) :: gs
      | [] => [[c]]

/-- request_line.split(' ').collect() in Server::handle_connection. -/
def splitSpace (s : String) : List String :=
  (splitSpaceChars s.data).map String.mk

/-- Server::handle_connection in main.rs: request_line is the first line
read from the stream (none when the stream is empty or unreadable, in which
case the handler returns without writing a response); the metrics outcome of
the pipeline is passed in.  The result is the response sent, as the pair of
ResponseType and optional content handed to send_response. -/
def handle_connection (request_line : Option String)
    (metricsResult : Except String String) : Option (ResponseType × Option String) :=
  match request_line with
  | none => none
  | some line =>
    let request_tokens := splitSpace line
    if request_tokens.length ≠ 3 then
      some (ResponseType.BadRequest, none)
    else if request_tokens.getD 0 "" ≠ "GET" then
      some (ResponseType.NotFound, none)
    else
      let path := request_tokens.getD 1 ""
      if path = "/metrics" then
        match metricsResult with
        | Except.ok response => some (ResponseType.Ok, some response)
        | Except.error _ => some (ResponseType.NotFound, none)
      else
        some (ResponseType.NotFound, none)

/-- Fixture: a fetch outcome with two qualifying blocks, used for concrete
runs of the pipeline. -/
def sampleBlocks : List Block :=
  [⟨true, ["12", "B3", "7 Minuten"]⟩, ⟨true, ["4", "F1", "3 Minuten"]⟩]

/-- Fixture: a data frame sitting in the cache, created at instant 0. -/
def sampleFrame : DataFrame :=
  ⟨⟨5, ⟨TicketType.B, 3⟩, 7, none⟩, ⟨4, ⟨TicketType.F, 1⟩, 3, none⟩, true, 0, 0, 0⟩

/-- Fixture: the same frame created at instant 25000000000 (25 s). -/
def sampleFrame2 : DataFrame :=
  { sampleFrame with created_instant := 25000000000 }

/-! ## Theorems -/

set_option maxRecDepth 40000

theorem data_append_eq (s t : String) : (s ++ t).data = s.data ++ t.data := by
  cases s
  cases t
  rfl

theorem ne_of_head_diff (c1 r1 c2 r2 : String) (i : Nat)
    (h1 : i < c1.data.length) (h2 : i < c2.data.length)
    (hne : c1.data[i]? ≠ c2.data[i]?) : c1 ++ r1 ≠ c2 ++ r2 := by
  intro he
  apply hne
  have e1 : (c1 ++ r1).data[i]? = c1.data[i]? := by
    rw [data_append_eq]
    exact List.getElem?_append_left h1
  have e2 : (c2 ++ r2).data[i]? = c2.data[i]? := by
    rw [data_append_eq]
    exact List.getElem?_append_left h2
  rw [← e1, ← e2, he]

theorem ne_of_head_diff_right (c1 r1 v : String) (i : Nat)
    (h1 : i < c1.data.length)
    (hne : c1.data[i]? ≠ v.data[i]?) : c1 ++ r1 ≠ v := by
  intro he
  apply hne
  have e1 : (c1 ++ r1).data[i]? = c1.data[i]? := by
    rw [data_append_eq]
    exact List.getElem?_append_left h1
  rw [← e1, he]

/-- Claim C6: Ticket label parsing: a first character B or F fixes the
category and the remaining characters are parsed as the sequence number,
with numeric-suffix parse failures (non-digit, empty remainder, overflow)
being errors; any other first character, or the empty string, yields the
none variant with sequence number 0 without parsing the remainder and is
never an error.  In particular B42 parses to (B, 42), F7 to (F, 7), an em
dash or the empty string to (none, 0), and a bare B is a parse failure. -/
theorem ticket_parse_spec :
    (∀ s : String, s.data.head? = some 'B' →
      Ticket.parse s =
        (match parseUsize (s.drop 1) with
         | some n => Except.ok ⟨TicketType.B, n⟩
         | none => Except.error ()))
  ∧ (∀ s : String, s.data.head? = some 'F' →
      Ticket.parse s =
        (match parseUsize (s.drop 1) with
         | some n => Except.ok ⟨TicketType.F, n⟩
         | none => Except.error ()))
  ∧ (∀ s : String, s.data.head? ≠ some 'B' → s.data.head? ≠ some 'F' →
      Ticket.parse s = Except.ok ⟨TicketType.None, 0⟩)
  ∧ Ticket.parse "B42" = Except.ok ⟨TicketType.B, 42⟩
  ∧ Ticket.parse "F7" = Except.ok ⟨TicketType.F, 7⟩
  ∧ Ticket.parse "—" = Except.ok ⟨TicketType.None, 0⟩
  ∧ Ticket.parse "" = Except.ok ⟨TicketType.None, 0⟩
  ∧ Ticket.parse "B" = Except.error ()
  ∧ Ticket.parse "B12x" = Except.error ()
  ∧ Ticket.parse "B18446744073709551616" = Except.error () := by
  refine ⟨?_, ?_, ?_, rfl, rfl, rfl, rfl, rfl, rfl, rfl⟩
  · intro s h
    simp only [Ticket.parse, h]
  · intro s h
    simp only [Ticket.parse, h]
  · intro s h1 h2
    simp only [Ticket.parse]

theorem ticket_parse_spec_witness :
    Ticket.parse "Z9" = Except.ok ⟨TicketType.None, 0⟩ :=
  ticket_parse_spec.2.2.1 "Z9" (by decide) (by decide)

/-- Claim C8: For every connection the dispatcher reads one request line:
no line (blank or unreadable input) gets no response; a line that does not
split on spaces into exactly 3 tokens gets BadRequest; 3 tokens whose method
is not GET get NotFound; a GET for a path other than /metrics gets NotFound;
GET /metrics answers Ok with the rendered body on pipeline success and
NotFound (with the error only logged, never sent) on pipeline failure. -/
theorem dispatcher_spec :
    (∀ r, handle_connection none r = none)
  ∧ (∀ line r, (splitSpace line).length ≠ 3 →
      handle_connection (some line) r = some (ResponseType.BadRequest, none))
  ∧ (∀ line t0 t1 t2 r, splitSpace line = [t0, t1, t2] → t0 ≠ "GET" →
      handle_connection (some line) r = some (ResponseType.NotFound, none))
  ∧ (∀ line t1 t2 r, splitSpace line = ["GET", t1, t2] → t1 ≠ "/metrics" →
      handle_connection (some line) r = some (ResponseType.NotFound, none))
  ∧ (∀ line t2 body, splitSpace line = ["GET", "/metrics", t2] →
      handle_connection (some line) (Except.ok body) = some (ResponseType.Ok, some body))
  ∧ (∀ line t2 e, splitSpace line = ["GET", "/metrics", t2] →
      handle_connection (some line) (Except.error e) = some (ResponseType.NotFound, none)) := by
  refine ⟨fun r => rfl, ?_, ?_, ?_, ?_, ?_⟩
  · intro line r h
    simp [handle_connection, h]
  · intro line t0 t1 t2 r h1 h2
    simp [handle_connection, h1, h2]
  · intro line t1 t2 r h1 h2
    simp [handle_connection, h1, h2]
  · intro line t2 body h1
    simp [handle_connection, h1]
  · intro line t2 e h1
    simp [handle_connection, h1]

theorem dispatcher_spec_witness :
    handle_connection (some "POST /metrics HTTP/1.1") (Except.ok "body") =
      some (ResponseType.NotFound, none)
  ∧ handle_connection (some "GET /metrics") (Except.ok "body") =
      some (ResponseType.BadRequest, none)
  ∧ handle_connection (some "GET /metrics HTTP/1.1") (Except.error "boom") =
      some (ResponseType.NotFound, none) :=
  ⟨dispatcher_spec.2.2.1 "POST /metrics HTTP/1.1" "POST" "/metrics" "HTTP/1.1"
     (Except.ok "body") (by decide) (by decide),
   dispatcher_spec.2.1 "GET /metrics" (Except.ok "body") (by decide),
   dispatcher_spec.2.2.2.2.2 "GET /metrics HTTP/1.1" "HTTP/1.1" "boom" (by decide)⟩

/-- Claim C9: Every response written consists of the status line, one line
per header, a Content-Length header whose value is the exact byte length of
the body that follows, then the body; when no pipeline content is supplied,
the body sent is the code-and-reason string itself. -/
theorem send_response_spec (response_type : ResponseType)
    (headers : List (String × String)) (content : Option String) :
    ∃ body : String,
      send_response response_type headers content =
        [HTTP_VERSION ++ (" " ++ (code_and_reason response_type ++ "\r\n"))]
        ++ headers.map (fun kv => kv.1 ++ (": " ++ (kv.2 ++ "\r\n")))
        ++ ["Content-Length: " ++ (toString body.utf8ByteSize ++ "\r\n\r\n"), body]
      ∧ (∀ c, content = some c → body = c)
      ∧ (content = none → body = code_and_reason response_type) := by
  cases content with
  | none =>
    refine ⟨code_and_reason response_type, rfl, ?_, fun _ => rfl⟩
    intro c hc
    exact Option.noConfusion hc
  | some c =>
    refine ⟨c, rfl, ?_, ?_⟩
    · intro c2 hc
      cases hc
      rfl
    · intro h
      exact Option.noConfusion h

theorem send_response_spec_witness :
    send_response ResponseType.BadRequest [] none =
      ["HTTP/1.1 400 BAD REQUEST\r\n", "Content-Length: 15\r\n\r\n", "400 BAD REQUEST"] := by
  obtain ⟨body, heq, hsome, hnone⟩ := send_response_spec ResponseType.BadRequest [] none
  rw [heq, hnone rfl]
  decide

theorem trackerGet_filter (m : List (Ticket × Nat)) (exp : TicketType) (k : Ticket) :
    trackerGet (m.filter (fun kv => decide (kv.1.ty ≠ exp))) k =
      if k.ty = exp then none else trackerGet m k := by
  induction m with
  | nil =>
    by_cases h : k.ty = exp <;> simp [trackerGet, h]
  | cons kv rest ih =>
    by_cases h1 : kv.1.ty = exp
    · have hkeep : (decide (kv.1.ty ≠ exp)) = false := by simp [h1]
      rw [List.filter_cons, hkeep]
      simp only [Bool.false_eq_true, if_false, ih]
      by_cases h2 : k.ty = exp
      · simp [h2]
      · have hne : kv.1 ≠ k := fun he => h2 (by rw [← he]; exact h1)
        simp [h2, trackerGet, hne]
    · have hkeep : (decide (kv.1.ty ≠ exp)) = true := by simp [h1]
      rw [List.filter_cons, hkeep]
      simp only [if_true]
      by_cases h2 : kv.1 = k
      · have hk : k.ty ≠ exp := by rw [← h2]; exact h1
        simp [trackerGet, h2, hk]
      · simp only [trackerGet, h2, if_false, ih]

theorem update_tracker_ret_none_of_absent (s : Scraper) (t : Ticket) (q : Nat)
    (e : TicketType) (now : Nat)
    (habs : trackerGet s.ticket_tracker t = none) :
    (s.update_tracker t q e now).1 = none := by
  by_cases h1 : t.ty = TicketType.None
  · simp [Scraper.update_tracker, h1]
  · by_cases h2 : t.ty ≠ e
    · simp [Scraper.update_tracker, h1, h2]
    · simp [Scraper.update_tracker, h1, h2, habs]

/-- Claim C5: an update observing a none-category ticket purges exactly the
entries whose category equals the expected category (other categories kept)
and returns nothing; afterwards an update observing any previously-tracked
ticket of that category returns nothing; an update observing a non-none
ticket of a category different from the expected one returns nothing and
leaves the map unchanged. -/
theorem tracker_reset_spec :
    (∀ (s : Scraper) (ticket : Ticket) (q : Nat) (exp : TicketType) (now : Nat),
      ticket.ty = TicketType.None →
        (s.update_tracker ticket q exp now).1 = none
      ∧ (∀ k : Ticket,
          trackerGet (s.update_tracker ticket q exp now).2.ticket_tracker k =
            if k.ty = exp then none else trackerGet s.ticket_tracker k)
      ∧ (∀ (t2 : Ticket) (q2 : Nat) (e2 : TicketType) (now2 : Nat), t2.ty = exp →
          ((s.update_tracker ticket q exp now).2.update_tracker t2 q2 e2 now2).1 = none))
  ∧ (∀ (s : Scraper) (ticket : Ticket) (q : Nat) (exp : TicketType) (now : Nat),
      ticket.ty ≠ TicketType.None → ticket.ty ≠ exp →
        s.update_tracker ticket q exp now = (none, s)) := by
  constructor
  · intro s ticket q exp now h
    refine ⟨?_, ?_, ?_⟩
    · simp [Scraper.update_tracker, h]
    · intro k
      simp only [Scraper.update_tracker, h, if_pos]
      exact trackerGet_filter s.ticket_tracker exp k
    · intro t2 q2 e2 now2 ht2
      apply update_tracker_ret_none_of_absent
      simp only [Scraper.update_tracker, h, if_pos]
      rw [trackerGet_filter]
      simp [ht2]
  · intro s ticket q exp now h1 h2
    simp [Scraper.update_tracker, h1, h2]

theorem tracker_reset_spec_witness :
    ((Scraper.mk none [(⟨TicketType.B, 5⟩, 10), (⟨TicketType.F, 3⟩, 20)]).update_tracker
        ⟨TicketType.None, 0⟩ 0 TicketType.B 100).1 = none
  ∧ trackerGet ((Scraper.mk none [(⟨TicketType.B, 5⟩, 10), (⟨TicketType.F, 3⟩, 20)]).update_tracker
        ⟨TicketType.None, 0⟩ 0 TicketType.B 100).2.ticket_tracker ⟨TicketType.B, 5⟩ = none
  ∧ trackerGet ((Scraper.mk none [(⟨TicketType.B, 5⟩, 10), (⟨TicketType.F, 3⟩, 20)]).update_tracker
        ⟨TicketType.None, 0⟩ 0 TicketType.B 100).2.ticket_tracker ⟨TicketType.F, 3⟩ = some 20
  ∧ (((Scraper.mk none [(⟨TicketType.B, 5⟩, 10), (⟨TicketType.F, 3⟩, 20)]).update_tracker
        ⟨TicketType.None, 0⟩ 0 TicketType.B 100).2.update_tracker
        ⟨TicketType.B, 5⟩ 7 TicketType.B 200).1 = none := by
  obtain ⟨ha, hb, hc⟩ := tracker_reset_spec.1
    (Scraper.mk none [(⟨TicketType.B, 5⟩, 10), (⟨TicketType.F, 3⟩, 20)])
    ⟨TicketType.None, 0⟩ 0 TicketType.B 100 rfl
  refine ⟨ha, ?_, ?_, hc ⟨TicketType.B, 5⟩ 7 TicketType.B 200 rfl⟩
  · rw [hb ⟨TicketType.B, 5⟩]
    decide
  · rw [hb ⟨TicketType.F, 3⟩]
    decide

/-- Claim C4: for a tracker update call whose observed ticket category
equals the expected category (B or F, the only categories Scraper::scrape
passes; the none case is the separate reset branch), the call returns
now - recorded_instant exactly when the observed ticket is in the map, the
read removes nothing, and the predicted ticket (category, sequence + queue
length) is recorded with the current instant only if not already present,
so a tracked ticket never has its timer reset. -/
theorem tracker_update_spec (s : Scraper) (ticket : Ticket) (queue_length : Nat)
    (exp : TicketType) (now : Nat)
    (heq : ticket.ty = exp) (hne : ticket.ty ≠ TicketType.None) :
    ((s.update_tracker ticket queue_length exp now).1 =
      (trackerGet s.ticket_tracker ticket).map (fun i => now - i))
  ∧ (trackerGet s.ticket_tracker ⟨ticket.ty, ticket.num + queue_length⟩ = none →
      trackerGet (s.update_tracker ticket queue_length exp now).2.ticket_tracker
        ⟨ticket.ty, ticket.num + queue_length⟩ = some now)
  ∧ (∀ i, trackerGet s.ticket_tracker ⟨ticket.ty, ticket.num + queue_length⟩ = some i →
      (s.update_tracker ticket queue_length exp now).2.ticket_tracker = s.ticket_tracker)
  ∧ (∀ k, k ≠ ⟨ticket.ty, ticket.num + queue_length⟩ →
      trackerGet (s.update_tracker ticket queue_length exp now).2.ticket_tracker k =
        trackerGet s.ticket_tracker k) := by
  have hg : ¬ticket.ty = TicketType.None := hne
  have hg2 : ¬ticket.ty ≠ exp := fun h => h heq
  refine ⟨?_, ?_, ?_, ?_⟩
  · simp [Scraper.update_tracker, hg, hg2]
  · intro h
    simp [Scraper.update_tracker, hg, hg2, h, trackerGet]
  · intro i h
    simp [Scraper.update_tracker, hg, hg2, h]
  · intro k hk
    rcases hmatch : trackerGet s.ticket_tracker ⟨ticket.ty, ticket.num + queue_length⟩ with _ | i
    · have hne2 : (⟨ticket.ty, ticket.num + queue_length⟩ : Ticket) ≠ k := fun h => hk h.symm
      simp [Scraper.update_tracker, hg, hg2, hmatch, trackerGet, hne2]
    · simp [Scraper.update_tracker, hg, hg2, hmatch]

theorem tracker_update_spec_witness :
    ((Scraper.mk none [(⟨TicketType.B, 15⟩, 10)]).update_tracker
        ⟨TicketType.B, 15⟩ 5 TicketType.B 100).1 = some 90
  ∧ trackerGet ((Scraper.mk none [(⟨TicketType.B, 15⟩, 10)]).update_tracker
        ⟨TicketType.B, 15⟩ 5 TicketType.B 100).2.ticket_tracker ⟨TicketType.B, 20⟩ = some 100 := by
  obtain ⟨h1, h2, h3, h4⟩ := tracker_update_spec
    (Scraper.mk none [(⟨TicketType.B, 15⟩, 10)]) ⟨TicketType.B, 15⟩ 5 TicketType.B 100
    rfl (by decide)
  constructor
  · rw [h1]
    decide
  · exact h2 (by decide)

theorem extractFrames_ok (bs : List Block) (dfs : List QueueDataFrame)
    (h : extractFrames bs = Except.ok dfs) :
    List.Forall₂ (fun (b : Block) (df : QueueDataFrame) => extractBlock b.values = Except.ok df)
      bs dfs := by
  induction bs generalizing dfs with
  | nil =>
    simp only [extractFrames] at h
    cases h
    exact List.Forall₂.nil
  | cons b rest ih =>
    simp only [extractFrames] at h
    cases hb : extractBlock b.values with
    | error e =>
      rw [hb] at h
      cases h
    | ok df =>
      rw [hb] at h
      cases hr : extractFrames rest with
      | error e =>
        rw [hr] at h
        cases h
      | ok dfs2 =>
        rw [hr] at h
        cases h
        exact List.Forall₂.cons hb (ih dfs2 hr)

/-- Claim C7: the extractor fails with the insufficient-fields error when a
qualifying block has fewer than 3 value fields, with a field-specific error
when the people-waiting count, the ticket label, or the waiting-time
estimate (after stripping the trailing unit suffix when present) fails to
parse, and the pipeline fails with the insufficient-blocks error when fewer
than 2 qualifying blocks extract; on success it yields the qualifying
blocks' snapshots in document order, positions 0 and 1 becoming the citizen
and drivers-license services respectively. -/
theorem extractor_spec :
    (∀ values : List String,
      values.length < 3 ↔ extractBlock values = Except.error "not enough lines")
  ∧ (∀ (v0 v1 v2 : String) (rest : List String), parseUsize v0 = none →
      extractBlock (v0 :: v1 :: v2 :: rest) = Except.error "cannot parse waiting persons")
  ∧ (∀ (v0 v1 v2 : String) (rest : List String) (n : Nat), parseUsize v0 = some n →
      Ticket.parse v1 = Except.error () →
      extractBlock (v0 :: v1 :: v2 :: rest) = Except.error "cannot parse current ticket")
  ∧ (∀ (v0 v1 v2 : String) (rest : List String) (n : Nat) (t : Ticket),
      parseUsize v0 = some n → Ticket.parse v1 = Except.ok t →
      parseUsize (stripMinuten v2) = none →
      extractBlock (v0 :: v1 :: v2 :: rest) = Except.error "cannot parse waiting-time estimation")
  ∧ (∀ (blocks : List Block) (e : String), extract blocks = Except.error e →
      ∀ (s : Scraper) (now start wall : Nat),
        s.scrape (Except.ok blocks) now start wall = Except.error e)
  ∧ (∀ (blocks : List Block) (dfs : List QueueDataFrame), extract blocks = Except.ok dfs →
      List.Forall₂ (fun (b : Block) (df : QueueDataFrame) => extractBlock b.values = Except.ok df)
        (blocks.filter (fun b => b.has_marker)) dfs)
  ∧ (∀ (blocks : List Block) (dfs : List QueueDataFrame), extract blocks = Except.ok dfs →
      dfs.length < 2 →
      ∀ (s : Scraper) (now start wall : Nat),
        s.scrape (Except.ok blocks) now start wall = Except.error "not enough data blocks")
  ∧ (∀ (blocks : List Block) (df0 df1 : QueueDataFrame) (rest : List QueueDataFrame),
      extract blocks = Except.ok (df0 :: df1 :: rest) →
      ∀ (s : Scraper) (now start wall : Nat),
        ∃ (frame : DataFrame) (s2 : Scraper),
          s.scrape (Except.ok blocks) now start wall = Except.ok (frame, s2)
        ∧ frame.citizen_services.people_waiting = df0.people_waiting
        ∧ frame.citizen_services.last_called_ticket = df0.last_called_ticket
        ∧ frame.citizen_services.waiting_time_estimation = df0.waiting_time_estimation
        ∧ frame.drivers_license_services.people_waiting = df1.people_waiting
        ∧ frame.drivers_license_services.last_called_ticket = df1.last_called_ticket
        ∧ frame.drivers_license_services.waiting_time_estimation = df1.waiting_time_estimation) := by
  refine ⟨?_, ?_, ?_, ?_, ?_, ?_, ?_, ?_⟩
  · intro values
    constructor
    · intro h
      rcases values with _ | ⟨v0, _ | ⟨v1, _ | ⟨v2, rest⟩⟩⟩
      · rfl
      · rfl
      · rfl
      · exfalso
        simp at h
        omega
    · intro h
      rcases values with _ | ⟨v0, _ | ⟨v1, _ | ⟨v2, rest⟩⟩⟩
      · simp
      · simp
      · simp
      · exfalso
        simp only [extractBlock] at h
        rcases hp0 : parseUsize v0 with _ | n <;> rw [hp0] at h
        · simp at h
        · rcases hp1 : Ticket.parse v1 with u | t <;> rw [hp1] at h
          · simp at h
          · rcases hp2 : parseUsize (stripMinuten v2) with _ | m <;> rw [hp2] at h
            · simp at h
            · simp at h
  · intro v0 v1 v2 rest h
    simp [extractBlock, h]
  · intro v0 v1 v2 rest n h0 h1
    simp [extractBlock, h0, h1]
  · intro v0 v1 v2 rest n t h0 h1 h2
    simp [extractBlock, h0, h1, h2]
  · intro blocks e h s now start wall
    simp [Scraper.scrape, h]
  · intro blocks dfs h
    exact extractFrames_ok _ _ h
  · intro blocks dfs h hlen s now start wall
    rcases dfs with _ | ⟨a, _ | ⟨b, t⟩⟩
    · simp [Scraper.scrape, h]
    · simp [Scraper.scrape, h]
    · exfalso
      simp at hlen
      omega
  · intro blocks df0 df1 rest h s now start wall
    simp only [Scraper.scrape, h]
    exact ⟨_, _, rfl, rfl, rfl, rfl, rfl, rfl, rfl⟩

theorem extractor_spec_witness :
    extractBlock ["12", "B3"] = Except.error "not enough lines"
  ∧ extractBlock ["x2", "B3", "7 Minuten"] = Except.error "cannot parse waiting persons"
  ∧ extractBlock ["12", "B", "7 Minuten"] = Except.error "cannot parse current ticket"
  ∧ extractBlock ["12", "B3", "? Minuten"] = Except.error "cannot parse waiting-time estimation" := by
  refine ⟨?_, ?_, ?_, ?_⟩
  · exact (extractor_spec.1 ["12", "B3"]).mp (by decide)
  · exact extractor_spec.2.1 "x2" "B3" "7 Minuten" [] (by decide)
  · exact extractor_spec.2.2.1 "12" "B" "7 Minuten" [] 12 (by decide) (by decide)
  · exact extractor_spec.2.2.2.1 "12" "B3" "? Minuten" [] 12 ⟨TicketType.B, 3⟩
      (by decide) (by decide) (by decide)

theorem scrapeAndStore_snd_snd (s : Scraper) (now start wall : Nat)
    (fetch : Except String (List Block)) :
    (s.scrapeAndStore now start wall fetch).2.2 = 1 := by
  unfold Scraper.scrapeAndStore
  cases s.scrape fetch now start wall with
  | error e => rfl
  | ok p =>
    rcases p with ⟨data, s2⟩
    rfl

theorem getOrScrape_hit (s : Scraper) (d : DataFrame) (now start wall : Nat)
    (fetch : Except String (List Block))
    (hc : s.cache = some d) (hg : now - CACHE_EXPIRATION < d.created_instant) :
    s.getOrScrape now start wall fetch = (Except.ok d, s, 0) := by
  simp only [Scraper.getOrScrape, hc]
  rw [if_pos hg]

theorem getOrScrape_miss (s : Scraper) (now start wall : Nat)
    (fetch : Except String (List Block))
    (hmiss : ∀ d, s.cache = some d → d.created_instant ≤ now - CACHE_EXPIRATION) :
    s.getOrScrape now start wall fetch = s.scrapeAndStore now start wall fetch := by
  cases hc : s.cache with
  | none => simp only [Scraper.getOrScrape, hc]
  | some d =>
    simp only [Scraper.getOrScrape, hc]
    rw [if_neg]
    have := hmiss d hc
    omega

theorem scrape_ok_cached_false (s : Scraper) (fetch : Except String (List Block))
    (now start wall : Nat) (data : DataFrame) (s2 : Scraper)
    (h : s.scrape fetch now start wall = Except.ok (data, s2)) : data.cached = false := by
  cases fetch with
  | error e => simp [Scraper.scrape] at h
  | ok blocks =>
    rcases hx : extract blocks with e | dfs
    · simp [Scraper.scrape, hx] at h
    · rcases dfs with _ | ⟨df0, _ | ⟨df1, r⟩⟩
      · simp [Scraper.scrape, hx] at h
      · simp [Scraper.scrape, hx] at h
      · simp only [Scraper.scrape, hx] at h
        cases h
        rfl

/-- Claim C3 (amended): the cached Snapshot is served (returned unchanged,
not re-marked, with the state untouched and no fetch) iff a cached Snapshot
exists and its age satisfies now - created_at_monotonic < TTL strictly; any
other call performs exactly one fetch of the source.  The code's guard is
created_instant > now - CACHE_EXPIRATION, so a frame whose age is exactly
the TTL is already refreshed, which is why the claimed non-strict age <= TTL
bound is corrected to a strict one. -/
theorem cache_spec (s : Scraper) (now start wall : Nat)
    (fetch : Except String (List Block)) (hnow : CACHE_EXPIRATION ≤ now) :
    ((s.getOrScrape now start wall fetch).2.2 = 0 ↔
      ∃ d, s.cache = some d ∧ now - d.created_instant < CACHE_EXPIRATION)
  ∧ (∀ d, s.cache = some d → now - d.created_instant < CACHE_EXPIRATION →
      s.getOrScrape now start wall fetch = (Except.ok d, s, 0))
  ∧ ((s.getOrScrape now start wall fetch).2.2 = 0 ∨
      (s.getOrScrape now start wall fetch).2.2 = 1) := by
  cases hc : s.cache with
  | none =>
    have hm : s.getOrScrape now start wall fetch = s.scrapeAndStore now start wall fetch :=
      getOrScrape_miss s now start wall fetch (fun d hd => absurd (hc ▸ hd) (by simp))
    have hss := scrapeAndStore_snd_snd s now start wall fetch
    rw [hm]
    refine ⟨?_, ?_, Or.inr hss⟩
    · constructor
      · intro h
        rw [hss] at h
        exact absurd h (by decide)
      · rintro ⟨d, hd, _⟩
        exact Option.noConfusion hd
    · intro d hd _
      exact Option.noConfusion hd
  | some d0 =>
    by_cases hg : now - CACHE_EXPIRATION < d0.created_instant
    · have hh := getOrScrape_hit s d0 now start wall fetch hc hg
      rw [hh]
      refine ⟨?_, ?_, Or.inl rfl⟩
      · constructor
        · intro _
          refine ⟨d0, rfl, ?_⟩
          unfold CACHE_EXPIRATION durFromSecs at hg hnow ⊢
          omega
        · intro _
          rfl
      · intro d hd _
        cases hd
        rfl
    · have hm : s.getOrScrape now start wall fetch = s.scrapeAndStore now start wall fetch := by
        apply getOrScrape_miss
        intro d hd
        rw [hc] at hd
        cases hd
        omega
      have hss := scrapeAndStore_snd_snd s now start wall fetch
      rw [hm]
      refine ⟨?_, ?_, Or.inr hss⟩
      · constructor
        · intro h
          rw [hss] at h
          exact absurd h (by decide)
        · rintro ⟨d, hd, hlt⟩
          cases hd
          omega
      · intro d hd hlt
        cases hd
        exfalso
        omega

theorem cache_spec_witness :
    (Scraper.mk (some sampleFrame2) []).getOrScrape 40000000000 40000000000 0
      (Except.error "network unreachable") = (Except.ok sampleFrame2, Scraper.mk (some sampleFrame2) [], 0) :=
  (cache_spec (Scraper.mk (some sampleFrame2) []) 40000000000 40000000000 0
      (Except.error "network unreachable") (by decide)).2.1 sampleFrame2 rfl (by decide)

/-- Claim C3 counterexample: with a cached frame whose age is exactly the
TTL (which satisfies the claimed age ≤ TTL condition), the code does not
serve the cached frame: it performs a fetch, and here propagates the fetch
error instead of returning the cached snapshot. -/
theorem cache_spec_counterexample :
    (30000000000 - sampleFrame.created_instant ≤ CACHE_EXPIRATION)
  ∧ ((Scraper.mk (some sampleFrame) []).getOrScrape 30000000000 30000000000 0
      (Except.error "network unreachable")).1 = Except.error "network unreachable"
  ∧ ((Scraper.mk (some sampleFrame) []).getOrScrape 30000000000 30000000000 0
      (Except.error "network unreachable")).2.2 = 1 := by
  decide

/-- Claim C1 (amended): on a metrics request that misses the cache the
pipeline invokes exactly one scrape; on success a clone of the new Snapshot
marked from_cache = true is stored as the new cache content, while the
snapshot returned to the caller is the freshly scraped one, which keeps
from_cache = false; on scrape failure the error is propagated and the whole
state, cache slot included, is left exactly as it was. -/
theorem cache_miss_spec (s : Scraper) (now start wall : Nat)
    (fetch : Except String (List Block))
    (hmiss : ∀ d, s.cache = some d → d.created_instant ≤ now - CACHE_EXPIRATION) :
    ((s.getOrScrape now start wall fetch).2.2 = 1)
  ∧ (∀ e, s.scrape fetch now start wall = Except.error e →
      s.getOrScrape now start wall fetch = (Except.error e, s, 1))
  ∧ (∀ (data : DataFrame) (s2 : Scraper), s.scrape fetch now start wall = Except.ok (data, s2) →
      s.getOrScrape now start wall fetch =
        (Except.ok data, { s2 with cache := some { data with cached := true } }, 1)
      ∧ data.cached = false) := by
  have hm := getOrScrape_miss s now start wall fetch hmiss
  refine ⟨?_, ?_, ?_⟩
  · rw [hm]
    exact scrapeAndStore_snd_snd s now start wall fetch
  · intro e he
    rw [hm]
    simp [Scraper.scrapeAndStore, he]
  · intro data s2 hok
    refine ⟨?_, scrape_ok_cached_false s fetch now start wall data s2 hok⟩
    rw [hm]
    simp [Scraper.scrapeAndStore, hok]

theorem cache_miss_spec_witness :
    (Scraper.mk none []).getOrScrape 100 100 0 (Except.error "network unreachable") =
      (Except.error "network unreachable", Scraper.mk none [], 1) :=
  (cache_miss_spec (Scraper.mk none []) 100 100 0 (Except.error "network unreachable")
      (fun d hd => Option.noConfusion hd)).2.1 "network unreachable" rfl

/-- Claim C1 counterexample: on a cold cache with a successful scrape, the
snapshot handed back to the caller still has from_cache = false (its
rendering shows erth_cached 0) while the stored cache content is the clone
that was marked from_cache = true: the returned snapshot is not the marked
snapshot, contradicting the claim that the marked snapshot is returned. -/
theorem cache_miss_counterexample :
    ((Scraper.mk none []).getOrScrape 100 100 0 (Except.ok sampleBlocks)).1.toOption.map
      DataFrame.cached = some false
  ∧ ((Scraper.mk none []).getOrScrape 100 100 0 (Except.ok sampleBlocks)).2.1.cache.map
      DataFrame.cached = some true := by
  decide

/-- Claim C2 (amended): for two consecutive metrics calls with no
intervening calls, where the first call is itself served from the cache and
both calls happen while the cached snapshot is within its TTL window, the
second call returns byte-identical rendered content to the first and the
from_cache metadata (the erth_cached line) is unchanged; the state is not
modified by either call.  (When the first call performs the scrape instead,
the responses differ in the erth_cached line, see the counterexample.) -/
theorem cache_hit_idempotent (s : Scraper) (d : DataFrame)
    (now1 now2 start1 start2 wall1 wall2 : Nat)
    (f1 f2 : Except String (List Block))
    (h1 : CACHE_EXPIRATION ≤ now1) (h2 : CACHE_EXPIRATION ≤ now2)
    (hc : s.cache = some d)
    (hf1 : now1 - CACHE_EXPIRATION < d.created_instant)
    (hf2 : now2 - CACHE_EXPIRATION < d.created_instant) :
    (s.metrics now1 start1 wall1 f1).1 = Except.ok (metricsBody d s.ticket_tracker.length)
  ∧ ((s.metrics now1 start1 wall1 f1).2.1.metrics now2 start2 wall2 f2).1 =
      (s.metrics now1 start1 wall1 f1).1
  ∧ (s.metrics now1 start1 wall1 f1).2.1 = s
  ∧ ((s.metrics now1 start1 wall1 f1).2.1.metrics now2 start2 wall2 f2).2.2 = 0 := by
  have hh1 := getOrScrape_hit s d now1 start1 wall1 f1 hc hf1
  have hh2 := getOrScrape_hit s d now2 start2 wall2 f2 hc hf2
  refine ⟨?_, ?_, ?_, ?_⟩ <;>
    simp only [Scraper.metrics, hh1, hh2]

theorem cache_hit_idempotent_witness :
    ((Scraper.mk (some sampleFrame2) []).metrics 40000000000 40000000000 0
        (Except.error "network unreachable")).1 =
      Except.ok (metricsBody sampleFrame2 0)
  ∧ (((Scraper.mk (some sampleFrame2) []).metrics 40000000000 40000000000 0
        (Except.error "network unreachable")).2.1.metrics 41000000000 41000000000 0
        (Except.error "network unreachable")).1 =
      ((Scraper.mk (some sampleFrame2) []).metrics 40000000000 40000000000 0
        (Except.error "network unreachable")).1 :=
  have h := cache_hit_idempotent (Scraper.mk (some sampleFrame2) []) sampleFrame2
    40000000000 41000000000 40000000000 41000000000 0 0
    (Except.error "network unreachable") (Except.error "network unreachable")
    (by decide) (by decide) rfl (by decide) (by decide)
  ⟨h.1, h.2.1⟩

/-- Claim C2 counterexample: two consecutive metrics calls one second apart
(well within the 30 s TTL window), the first on a cold cache.  The first
call scrapes and succeeds; the second call is served from the cache (it
performs no fetch), yet its rendered content differs from the first
response: the first response carries the line erth_cached 0 while the
second carries erth_cached 1, so the bodies are not byte-identical and the
from_cache metadata changes. -/
theorem cache_idempotent_counterexample :
    ((Scraper.mk none []).metrics 40000000000 40000000000 0 (Except.ok sampleBlocks)).1.toOption.isSome
      = true
  ∧ (((Scraper.mk none []).metrics 40000000000 40000000000 0 (Except.ok sampleBlocks)).2.1.metrics
        41000000000 41000000000 0 (Except.ok sampleBlocks)).2.2 = 0
  ∧ (((Scraper.mk none []).metrics 40000000000 40000000000 0 (Except.ok sampleBlocks)).2.1.metrics
        41000000000 41000000000 0 (Except.ok sampleBlocks)).1.toOption ≠
      ((Scraper.mk none []).metrics 40000000000 40000000000 0 (Except.ok sampleBlocks)).1.toOption := by
  decide

theorem mem_metaLines (x : String) (data : DataFrame) (n : Nat) (h : x ∈ metaLines data n) :
    x = "\n# Meta information\n"
  ∨ x = cachedLine data.cached
  ∨ x = trackedTicketsLine n
  ∨ x = scrapeDurationLine data.scrape_duration
  ∨ x = scrapeTimestampLine data.created_timestamp := by
  simpa [metaLines] using h

theorem mem_citizenLines (x : String) (q : QueueDataFrame) (h : x ∈ citizenLines q) :
    x = "# Information on the citizen service\n"
  ∨ x = citizenPeopleLine q
  ∨ (q.last_called_ticket.ty ≠ TicketType.None ∧ x = citizenTicketLine q.last_called_ticket)
  ∨ x = citizenWaitingLine q
  ∨ (∃ t, q.tracked_waiting_time = some t ∧ x = citizenTrackedLine t) := by
  unfold citizenLines at h
  rcases hty : q.last_called_ticket.ty <;> rw [hty] at h <;>
    rcases hopt : q.tracked_waiting_time with _ | v <;> rw [hopt] at h <;>
    simp only [List.mem_append, List.mem_cons, List.not_mem_nil, or_false, false_or] at h
  · have hne : TicketType.B ≠ TicketType.None := by decide
    tauto
  · have hne : TicketType.B ≠ TicketType.None := by decide
    have himp : x = citizenTrackedLine v →
        ∃ t, (some v : Option Nat) = some t ∧ x = citizenTrackedLine t := fun hh => ⟨v, rfl, hh⟩
    tauto
  · have hne : TicketType.F ≠ TicketType.None := by decide
    tauto
  · have hne : TicketType.F ≠ TicketType.None := by decide
    have himp : x = citizenTrackedLine v →
        ∃ t, (some v : Option Nat) = some t ∧ x = citizenTrackedLine t := fun hh => ⟨v, rfl, hh⟩
    tauto
  · tauto
  · have himp : x = citizenTrackedLine v →
        ∃ t, (some v : Option Nat) = some t ∧ x = citizenTrackedLine t := fun hh => ⟨v, rfl, hh⟩
    tauto

theorem mem_driversLines (x : String) (q : QueueDataFrame) (h : x ∈ driversLines q) :
    x = "\n# Information on the drivers-license service\n"
  ∨ x = driversPeopleLine q
  ∨ (q.last_called_ticket.ty ≠ TicketType.None ∧ x = driversTicketLine q.last_called_ticket)
  ∨ x = driversWaitingLine q
  ∨ (∃ t, q.tracked_waiting_time = some t ∧ x = driversTrackedLine t) := by
  unfold driversLines at h
  rcases hty : q.last_called_ticket.ty <;> rw [hty] at h <;>
    rcases hopt : q.tracked_waiting_time with _ | v <;> rw [hopt] at h <;>
    simp only [List.mem_append, List.mem_cons, List.not_mem_nil, or_false, false_or] at h
  · have hne : TicketType.B ≠ TicketType.None := by decide
    tauto
  · have hne : TicketType.B ≠ TicketType.None := by decide
    have himp : x = driversTrackedLine v →
        ∃ t, (some v : Option Nat) = some t ∧ x = driversTrackedLine t := fun hh => ⟨v, rfl, hh⟩
    tauto
  · have hne : TicketType.F ≠ TicketType.None := by decide
    tauto
  · have hne : TicketType.F ≠ TicketType.None := by decide
    have himp : x = driversTrackedLine v →
        ∃ t, (some v : Option Nat) = some t ∧ x = driversTrackedLine t := fun hh => ⟨v, rfl, hh⟩
    tauto
  · tauto
  · have himp : x = driversTrackedLine v →
        ∃ t, (some v : Option Nat) = some t ∧ x = driversTrackedLine t := fun hh => ⟨v, rfl, hh⟩
    tauto


theorem mem_three {α : Type} {x : α} {a b c : List α} (h : x ∈ a ++ b ++ c) :
    x ∈ a ∨ x ∈ b ∨ x ∈ c := by
  rcases List.mem_append.mp h with h12 | h3
  · rcases List.mem_append.mp h12 with h1 | h2
    · exact Or.inl h1
    · exact Or.inr (Or.inl h2)
  · exact Or.inr (Or.inr h3)

theorem citizenTicketLine_notMem (t : Ticket) (data : DataFrame) (n : Nat)
    (hty : data.citizen_services.last_called_ticket.ty = TicketType.None) :
    citizenTicketLine t ∉ metricsLines data n := by
  intro hmem
  rcases mem_three hmem with h1 | h2 | h3
  · rcases mem_citizenLines _ _ h1 with h | h | ⟨hne, h⟩ | h | ⟨v, hv, h⟩
    · exact absurd h (by
        simp only [citizenTicketLine]
        exact ne_of_head_diff_right _ _ _ 0 (by decide) (by decide))
    · exact absurd h (by
        simp only [citizenTicketLine, citizenPeopleLine]
        exact ne_of_head_diff _ _ _ _ 5 (by decide) (by decide) (by decide))
    · exact hne hty
    · exact absurd h (by
        simp only [citizenTicketLine, citizenWaitingLine]
        exact ne_of_head_diff _ _ _ _ 5 (by decide) (by decide) (by decide))
    · exact absurd h (by
        simp only [citizenTicketLine, citizenTrackedLine]
        exact ne_of_head_diff _ _ _ _ 5 (by decide) (by decide) (by decide))
  · rcases mem_driversLines _ _ h2 with h | h | ⟨hne, h⟩ | h | ⟨v, hv, h⟩
    · exact absurd h (by
        simp only [citizenTicketLine]
        exact ne_of_head_diff_right _ _ _ 0 (by decide) (by decide))
    · exact absurd h (by
        simp only [citizenTicketLine, driversPeopleLine]
        exact ne_of_head_diff _ _ _ _ 5 (by decide) (by decide) (by decide))
    · exact absurd h (by
        simp only [citizenTicketLine, driversTicketLine]
        exact ne_of_head_diff _ _ _ _ 33 (by decide) (by decide) (by decide))
    · exact absurd h (by
        simp only [citizenTicketLine, driversWaitingLine]
        exact ne_of_head_diff _ _ _ _ 5 (by decide) (by decide) (by decide))
    · exact absurd h (by
        simp only [citizenTicketLine, driversTrackedLine]
        exact ne_of_head_diff _ _ _ _ 5 (by decide) (by decide) (by decide))
  · rcases mem_metaLines _ _ _ h3 with h | h | h | h | h
    · exact absurd h (by
        simp only [citizenTicketLine]
        exact ne_of_head_diff_right _ _ _ 0 (by decide) (by decide))
    · exact absurd h (by
        simp only [citizenTicketLine, cachedLine]
        exact ne_of_head_diff _ _ _ _ 5 (by decide) (by decide) (by decide))
    · exact absurd h (by
        simp only [citizenTicketLine, trackedTicketsLine]
        exact ne_of_head_diff _ _ _ _ 5 (by decide) (by decide) (by decide))
    · exact absurd h (by
        simp only [citizenTicketLine, scrapeDurationLine]
        exact ne_of_head_diff _ _ _ _ 5 (by decide) (by decide) (by decide))
    · exact absurd h (by
        simp only [citizenTicketLine, scrapeTimestampLine]
        exact ne_of_head_diff _ _ _ _ 5 (by decide) (by decide) (by decide))

theorem driversTicketLine_notMem (t : Ticket) (data : DataFrame) (n : Nat)
    (hty : data.drivers_license_services.last_called_ticket.ty = TicketType.None) :
    driversTicketLine t ∉ metricsLines data n := by
  intro hmem
  rcases mem_three hmem with h1 | h2 | h3
  · rcases mem_citizenLines _ _ h1 with h | h | ⟨hne, h⟩ | h | ⟨v, hv, h⟩
    · exact absurd h (by
        simp only [driversTicketLine]
        exact ne_of_head_diff_right _ _ _ 0 (by decide) (by decide))
    · exact absurd h (by
        simp only [driversTicketLine, citizenPeopleLine]
        exact ne_of_head_diff _ _ _ _ 5 (by decide) (by decide) (by decide))
    · exact absurd h (by
        simp only [driversTicketLine, citizenTicketLine]
        exact ne_of_head_diff _ _ _ _ 33 (by decide) (by decide) (by decide))
    · exact absurd h (by
        simp only [driversTicketLine, citizenWaitingLine]
        exact ne_of_head_diff _ _ _ _ 5 (by decide) (by decide) (by decide))
    · exact absurd h (by
        simp only [driversTicketLine, citizenTrackedLine]
        exact ne_of_head_diff _ _ _ _ 5 (by decide) (by decide) (by decide))
  · rcases mem_driversLines _ _ h2 with h | h | ⟨hne, h⟩ | h | ⟨v, hv, h⟩
    · exact absurd h (by
        simp only [driversTicketLine]
        exact ne_of_head_diff_right _ _ _ 0 (by decide) (by decide))
    · exact absurd h (by
        simp only [driversTicketLine, driversPeopleLine]
        exact ne_of_head_diff _ _ _ _ 5 (by decide) (by decide) (by decide))
    · exact hne hty
    · exact absurd h (by
        simp only [driversTicketLine, driversWaitingLine]
        exact ne_of_head_diff _ _ _ _ 5 (by decide) (by decide) (by decide))
    · exact absurd h (by
        simp only [driversTicketLine, driversTrackedLine]
        exact ne_of_head_diff _ _ _ _ 5 (by decide) (by decide) (by decide))
  · rcases mem_metaLines _ _ _ h3 with h | h | h | h | h
    · exact absurd h (by
        simp only [driversTicketLine]
        exact ne_of_head_diff_right _ _ _ 0 (by decide) (by decide))
    · exact absurd h (by
        simp only [driversTicketLine, cachedLine]
        exact ne_of_head_diff _ _ _ _ 5 (by decide) (by decide) (by decide))
    · exact absurd h (by
        simp only [driversTicketLine, trackedTicketsLine]
        exact ne_of_head_diff _ _ _ _ 5 (by decide) (by decide) (by decide))
    · exact absurd h (by
        simp only [driversTicketLine, scrapeDurationLine]
        exact ne_of_head_diff _ _ _ _ 5 (by decide) (by decide) (by decide))
    · exact absurd h (by
        simp only [driversTicketLine, scrapeTimestampLine]
        exact ne_of_head_diff _ _ _ _ 5 (by decide) (by decide) (by decide))

theorem citizenTrackedLine_notMem (t : Nat) (data : DataFrame) (n : Nat)
    (htr : data.citizen_services.tracked_waiting_time = none) :
    citizenTrackedLine t ∉ metricsLines data n := by
  intro hmem
  rcases mem_three hmem with h1 | h2 | h3
  · rcases mem_citizenLines _ _ h1 with h | h | ⟨hne, h⟩ | h | ⟨v, hv, h⟩
    · exact absurd h (by
        simp only [citizenTrackedLine]
        exact ne_of_head_diff_right _ _ _ 0 (by decide) (by decide))
    · exact absurd h (by
        simp only [citizenTrackedLine, citizenPeopleLine]
        exact ne_of_head_diff _ _ _ _ 5 (by decide) (by decide) (by decide))
    · exact absurd h (by
        simp only [citizenTrackedLine, citizenTicketLine]
        exact ne_of_head_diff _ _ _ _ 5 (by decide) (by decide) (by decide))
    · exact absurd h (by
        simp only [citizenTrackedLine, citizenWaitingLine]
        exact ne_of_head_diff _ _ _ _ 5 (by decide) (by decide) (by decide))
    · rw [htr] at hv
      exact Option.noConfusion hv
  · rcases mem_driversLines _ _ h2 with h | h | ⟨hne, h⟩ | h | ⟨v, hv, h⟩
    · exact absurd h (by
        simp only [citizenTrackedLine]
        exact ne_of_head_diff_right _ _ _ 0 (by decide) (by decide))
    · exact absurd h (by
        simp only [citizenTrackedLine, driversPeopleLine]
        exact ne_of_head_diff _ _ _ _ 5 (by decide) (by decide) (by decide))
    · exact absurd h (by
        simp only [citizenTrackedLine, driversTicketLine]
        exact ne_of_head_diff _ _ _ _ 5 (by decide) (by decide) (by decide))
    · exact absurd h (by
        simp only [citizenTrackedLine, driversWaitingLine]
        exact ne_of_head_diff _ _ _ _ 5 (by decide) (by decide) (by decide))
    · exact absurd h (by
        simp only [citizenTrackedLine, driversTrackedLine]
        exact ne_of_head_diff _ _ _ _ 35 (by decide) (by decide) (by decide))
  · rcases mem_metaLines _ _ _ h3 with h | h | h | h | h
    · exact absurd h (by
        simp only [citizenTrackedLine]
        exact ne_of_head_diff_right _ _ _ 0 (by decide) (by decide))
    · exact absurd h (by
        simp only [citizenTrackedLine, cachedLine]
        exact ne_of_head_diff _ _ _ _ 5 (by decide) (by decide) (by decide))
    · exact absurd h (by
        simp only [citizenTrackedLine, trackedTicketsLine]
        exact ne_of_head_diff _ _ _ _ 13 (by decide) (by decide) (by decide))
    · exact absurd h (by
        simp only [citizenTrackedLine, scrapeDurationLine]
        exact ne_of_head_diff _ _ _ _ 5 (by decide) (by decide) (by decide))
    · exact absurd h (by
        simp only [citizenTrackedLine, scrapeTimestampLine]
        exact ne_of_head_diff _ _ _ _ 5 (by decide) (by decide) (by decide))

theorem driversTrackedLine_notMem (t : Nat) (data : DataFrame) (n : Nat)
    (htr : data.drivers_license_services.tracked_waiting_time = none) :
    driversTrackedLine t ∉ metricsLines data n := by
  intro hmem
  rcases mem_three hmem with h1 | h2 | h3
  · rcases mem_citizenLines _ _ h1 with h | h | ⟨hne, h⟩ | h | ⟨v, hv, h⟩
    · exact absurd h (by
        simp only [driversTrackedLine]
        exact ne_of_head_diff_right _ _ _ 0 (by decide) (by decide))
    · exact absurd h (by
        simp only [driversTrackedLine, citizenPeopleLine]
        exact ne_of_head_diff _ _ _ _ 5 (by decide) (by decide) (by decide))
    · exact absurd h (by
        simp only [driversTrackedLine, citizenTicketLine]
        exact ne_of_head_diff _ _ _ _ 5 (by decide) (by decide) (by decide))
    · exact absurd h (by
        simp only [driversTrackedLine, citizenWaitingLine]
        exact ne_of_head_diff _ _ _ _ 5 (by decide) (by decide) (by decide))
    · exact absurd h (by
        simp only [driversTrackedLine, citizenTrackedLine]
        exact ne_of_head_diff _ _ _ _ 35 (by decide) (by decide) (by decide))
  · rcases mem_driversLines _ _ h2 with h | h | ⟨hne, h⟩ | h | ⟨v, hv, h⟩
    · exact absurd h (by
        simp only [driversTrackedLine]
        exact ne_of_head_diff_right _ _ _ 0 (by decide) (by decide))
    · exact absurd h (by
        simp only [driversTrackedLine, driversPeopleLine]
        exact ne_of_head_diff _ _ _ _ 5 (by decide) (by decide) (by decide))
    · exact absurd h (by
        simp only [driversTrackedLine, driversTicketLine]
        exact ne_of_head_diff _ _ _ _ 5 (by decide) (by decide) (by decide))
    · exact absurd h (by
        simp only [driversTrackedLine, driversWaitingLine]
        exact ne_of_head_diff _ _ _ _ 5 (by decide) (by decide) (by decide))
    · rw [htr] at hv
      exact Option.noConfusion hv
  · rcases mem_metaLines _ _ _ h3 with h | h | h | h | h
    · exact absurd h (by
        simp only [driversTrackedLine]
        exact ne_of_head_diff_right _ _ _ 0 (by decide) (by decide))
    · exact absurd h (by
        simp only [driversTrackedLine, cachedLine]
        exact ne_of_head_diff _ _ _ _ 5 (by decide) (by decide) (by decide))
    · exact absurd h (by
        simp only [driversTrackedLine, trackedTicketsLine]
        exact ne_of_head_diff _ _ _ _ 13 (by decide) (by decide) (by decide))
    · exact absurd h (by
        simp only [driversTrackedLine, scrapeDurationLine]
        exact ne_of_head_diff _ _ _ _ 5 (by decide) (by decide) (by decide))
    · exact absurd h (by
        simp only [driversTrackedLine, scrapeTimestampLine]
        exact ne_of_head_diff _ _ _ _ 5 (by decide) (by decide) (by decide))

/-- Claim C10: the rendered metrics text consists of the citizen block, then
the drivers-license block, then the meta block; each service block always
carries its people-waiting line and its waiting-time-estimate line; it
carries a last-called-ticket line exactly when the ticket's category is not
none, and a tracked-wait-duration line (whole seconds) exactly when the
tracked duration is present — an absent value produces no line at all. -/
theorem metrics_render_spec (data : DataFrame) (n : Nat) :
    metricsBody data n = String.join (citizenLines data.citizen_services
      ++ driversLines data.drivers_license_services ++ metaLines data n)
  ∧ citizenPeopleLine data.citizen_services ∈ metricsLines data n
  ∧ citizenWaitingLine data.citizen_services ∈ metricsLines data n
  ∧ driversPeopleLine data.drivers_license_services ∈ metricsLines data n
  ∧ driversWaitingLine data.drivers_license_services ∈ metricsLines data n
  ∧ (citizenTicketLine data.citizen_services.last_called_ticket ∈ metricsLines data n ↔
      data.citizen_services.last_called_ticket.ty ≠ TicketType.None)
  ∧ (driversTicketLine data.drivers_license_services.last_called_ticket ∈ metricsLines data n ↔
      data.drivers_license_services.last_called_ticket.ty ≠ TicketType.None)
  ∧ (∀ t, data.citizen_services.tracked_waiting_time = some t →
      citizenTrackedLine t ∈ metricsLines data n)
  ∧ (data.citizen_services.tracked_waiting_time = none →
      ∀ t, citizenTrackedLine t ∉ metricsLines data n)
  ∧ (∀ t, data.drivers_license_services.tracked_waiting_time = some t →
      driversTrackedLine t ∈ metricsLines data n)
  ∧ (data.drivers_license_services.tracked_waiting_time = none →
      ∀ t, driversTrackedLine t ∉ metricsLines data n) := by
  refine ⟨rfl, ?_, ?_, ?_, ?_, ?_, ?_, ?_, ?_, ?_, ?_⟩
  · refine List.mem_append.mpr (Or.inl (List.mem_append.mpr (Or.inl ?_)))
    unfold citizenLines
    simp
  · refine List.mem_append.mpr (Or.inl (List.mem_append.mpr (Or.inl ?_)))
    unfold citizenLines
    simp
  · refine List.mem_append.mpr (Or.inl (List.mem_append.mpr (Or.inr ?_)))
    unfold driversLines
    simp
  · refine List.mem_append.mpr (Or.inl (List.mem_append.mpr (Or.inr ?_)))
    unfold driversLines
    simp
  · constructor
    · intro hmem hty
      exact citizenTicketLine_notMem _ data n hty hmem
    · intro hne
      refine List.mem_append.mpr (Or.inl (List.mem_append.mpr (Or.inl ?_)))
      unfold citizenLines
      rcases hty : data.citizen_services.last_called_ticket.ty
      · simp
      · simp
      · rw [hty] at hne
        exact absurd rfl hne
  · constructor
    · intro hmem hty
      exact driversTicketLine_notMem _ data n hty hmem
    · intro hne
      refine List.mem_append.mpr (Or.inl (List.mem_append.mpr (Or.inr ?_)))
      unfold driversLines
      rcases hty : data.drivers_license_services.last_called_ticket.ty
      · simp
      · simp
      · rw [hty] at hne
        exact absurd rfl hne
  · intro t ht
    refine List.mem_append.mpr (Or.inl (List.mem_append.mpr (Or.inl ?_)))
    unfold citizenLines
    simp [ht]
  · intro htr t
    exact citizenTrackedLine_notMem t data n htr
  · intro t ht
    refine List.mem_append.mpr (Or.inl (List.mem_append.mpr (Or.inr ?_)))
    unfold driversLines
    simp [ht]
  · intro htr t
    exact driversTrackedLine_notMem t data n htr

theorem metrics_render_spec_witness :
    citizenPeopleLine sampleFrame.citizen_services ∈ metricsLines sampleFrame 2
  ∧ citizenTicketLine sampleFrame.citizen_services.last_called_ticket ∈ metricsLines sampleFrame 2
  ∧ (∀ t, citizenTrackedLine t ∉ metricsLines sampleFrame 2) := by
  have h := metrics_render_spec sampleFrame 2
  exact ⟨h.2.1, h.2.2.2.2.2.1.mpr (by decide), h.2.2.2.2.2.2.2.2.1 (by decide)⟩
